import Mathlib

/-!
Verification of the xdg-shell handler core of the niri compositor
(src/src/handlers/xdg_shell.rs), as a shallow embedding in Lean.

External collaborators (the smithay library, the layout engine, the seat,
the output registry) are represented by the values of their queries and by
abstract solver functions, exactly as the handler code observes them; the
control flow and state updates of the handler itself are translated
line by line from the source.
-/

namespace Niri

/-! ## Window rules (resolve_window_rules, window_matches) -/

/-- Identity attributes of a toplevel window role
(XdgToplevelSurfaceRoleAttributes as read by window_matches). -/
structure Role where
  app_id : Option String
  title : Option String

/-- One match (or exclude) criterion (niri_config::Match). A regex is
modelled by the predicate it decides on strings. -/
structure Match where
  app_id : Option (String → Bool)
  title : Option (String → Bool)

/-- Column widths are opaque to this handler: the code only copies them
around, so they are modelled by an abstract carrier. -/
abbrev ColumnWidth := Nat

/-- The default-column-width rule field: a tuple struct holding a list of
preset widths (field .0 in the source); ColumnWidth conversion of a preset
is modelled as the identity. -/
structure DefaultColumnWidth where
  widths : List ColumnWidth

/-- One window rule (niri_config::WindowRule) as resolve_window_rules
reads it. -/
structure WindowRule where
  «matches» : List Match
  excludes : List Match
  default_column_width : Option DefaultColumnWidth
  open_on_output : Option String

/-- The folded result of all applicable rules (ResolvedWindowRule). -/
structure ResolvedWindowRule where
  default_width : Option (Option ColumnWidth) := none
  open_on_output : Option String := none
deriving DecidableEq

/-- window_matches: every pattern present in the criterion must hold on the
corresponding attribute; a missing attribute fails that pattern. -/
def window_matches (role : Role) (m : Match) : Bool :=
  (match m.app_id with
   | none => true
   | some app_id_re =>
     match role.app_id with
     | none => false
     | some app_id => app_id_re app_id) &&
  (match m.title with
   | none => true
   | some title_re =>
     match role.title with
     | none => false
     | some title => title_re title)

/-- The body of the rule loop of resolve_window_rules for a single rule:
skip on match failure or exclude hit, otherwise overwrite the present
fields. -/
def resolveStep (role : Role) (resolved : ResolvedWindowRule) (rule : WindowRule) :
    ResolvedWindowRule :=
  if !(rule.«matches».isEmpty || rule.«matches».any fun m => window_matches role m) then
    resolved
  else if rule.excludes.any fun m => window_matches role m then
    resolved
  else
    let resolved :=
      match rule.default_column_width with
      | some d => { resolved with default_width := some d.widths.head? }
      | none => resolved
    match rule.open_on_output with
    | some x => { resolved with open_on_output := some x }
    | none => resolved

/-- resolve_window_rules: fold the rules in list order over the default
(empty) resolution. -/
def resolve_window_rules (rules : List WindowRule) (role : Role) : ResolvedWindowRule :=
  rules.foldl (resolveStep role) {}

/-- A rule applies to a window iff its match list is empty or some match
criterion matches, and no exclude criterion matches. -/
def ruleApplies (role : Role) (rule : WindowRule) : Bool :=
  (rule.«matches».isEmpty || rule.«matches».any fun m => window_matches role m) &&
  !(rule.excludes.any fun m => window_matches role m)

/-- Modelled from the spec: the resolved default width is the value from the
last applicable rule that sets that field (last-match-wins per field). -/
def specDefaultWidth (rules : List WindowRule) (role : Role) : Option (Option ColumnWidth) :=
  match (rules.filter fun r => ruleApplies role r && r.default_column_width.isSome).getLast? with
  | some r =>
    match r.default_column_width with
    | some d => some d.widths.head?
    | none => none
  | none => none

/-- Modelled from the spec: the resolved output name is the value from the
last applicable rule that sets that field (last-match-wins per field). -/
def specOpenOnOutput (rules : List WindowRule) (role : Role) : Option String :=
  match (rules.filter fun r => ruleApplies role r && r.open_on_output.isSome).getLast? with
  | some r => r.open_on_output
  | none => none

theorem resolve_concat (rules : List WindowRule) (r : WindowRule) (role : Role) :
    resolve_window_rules (rules ++ [r]) role =
      resolveStep role (resolve_window_rules rules role) r := by
  simp [resolve_window_rules, List.foldl_append]

theorem resolveStep_dw (role : Role) (resolved : ResolvedWindowRule) (rule : WindowRule) :
    (resolveStep role resolved rule).default_width =
      if ruleApplies role rule then
        match rule.default_column_width with
        | some d => some d.widths.head?
        | none => resolved.default_width
      else resolved.default_width := by
  unfold resolveStep ruleApplies
  cases h1 : (rule.«matches».isEmpty || rule.«matches».any fun m => window_matches role m) <;>
    cases h2 : (rule.excludes.any fun m => window_matches role m) <;>
      cases hd : rule.default_column_width <;>
        cases ho : rule.open_on_output <;>
          simp [h1, h2, hd, ho]

theorem resolveStep_ooo (role : Role) (resolved : ResolvedWindowRule) (rule : WindowRule) :
    (resolveStep role resolved rule).open_on_output =
      if ruleApplies role rule then
        match rule.open_on_output with
        | some x => some x
        | none => resolved.open_on_output
      else resolved.open_on_output := by
  unfold resolveStep ruleApplies
  cases h1 : (rule.«matches».isEmpty || rule.«matches».any fun m => window_matches role m) <;>
    cases h2 : (rule.excludes.any fun m => window_matches role m) <;>
      cases hd : rule.default_column_width <;>
        cases ho : rule.open_on_output <;>
          simp [h1, h2, hd, ho]

theorem resolve_default_width (rules : List WindowRule) (role : Role) :
    (resolve_window_rules rules role).default_width = specDefaultWidth rules role := by
  induction rules using List.reverseRecOn with
  | nil => rfl
  | append_singleton rs r ih =>
    rw [resolve_concat, resolveStep_dw]
    unfold specDefaultWidth
    rw [List.filter_append]
    by_cases ha : ruleApplies role r = true
    · cases hd : r.default_column_width with
      | some d =>
        have hf : List.filter
            (fun x => ruleApplies role x && x.default_column_width.isSome) [r] = [r] := by
          simp [ha, hd]
        rw [hf, List.getLast?_concat]
        simp [ha, hd]
      | none =>
        have hf : List.filter
            (fun x => ruleApplies role x && x.default_column_width.isSome) [r] = [] := by
          simp [ha, hd]
        rw [hf, List.append_nil]
        simpa [ha, hd, specDefaultWidth] using ih
    · have hf : List.filter
          (fun x => ruleApplies role x && x.default_column_width.isSome) [r] = [] := by
        simp [ha]
      rw [hf, List.append_nil]
      simpa [ha, specDefaultWidth] using ih

theorem resolve_open_on_output (rules : List WindowRule) (role : Role) :
    (resolve_window_rules rules role).open_on_output = specOpenOnOutput rules role := by
  induction rules using List.reverseRecOn with
  | nil => rfl
  | append_singleton rs r ih =>
    rw [resolve_concat, resolveStep_ooo]
    unfold specOpenOnOutput
    rw [List.filter_append]
    by_cases ha : ruleApplies role r = true
    · cases hd : r.open_on_output with
      | some x =>
        have hf : List.filter
            (fun x => ruleApplies role x && x.open_on_output.isSome) [r] = [r] := by
          simp [ha, hd]
        rw [hf, List.getLast?_concat]
        simp [ha, hd]
      | none =>
        have hf : List.filter
            (fun x => ruleApplies role x && x.open_on_output.isSome) [r] = [] := by
          simp [ha, hd]
        rw [hf, List.append_nil]
        simpa [ha, hd, specOpenOnOutput] using ih
    · have hf : List.filter
          (fun x => ruleApplies role x && x.open_on_output.isSome) [r] = [] := by
        simp [ha]
      rw [hf, List.append_nil]
      simpa [ha, specOpenOnOutput] using ih

/-- Claim C2: resolve_window_rules visits rules in list order, skips a rule
whose non-empty match list has no matching criterion or whose exclude list
has a matching criterion (a rule with an empty match list matches every
window), and otherwise overwrites the present optional fields; hence each
resolved field equals the value of the last applicable rule that sets that
field, independently per field, and a later applicable rule lacking a field
leaves the earlier value intact. -/
theorem resolve_window_rules_last_match_wins (rules : List WindowRule) (role : Role) :
    resolve_window_rules rules role =
      { default_width := specDefaultWidth rules role,
        open_on_output := specOpenOnOutput rules role } := by
  rw [← resolve_default_width, ← resolve_open_on_output]

/-- Claim C9: within one criterion all present patterns must hold
conjunctively (a criterion with both an app_id pattern and a title pattern
matches only a window having an app_id matching the first and a title
matching the second), and across the match list one matching criterion
suffices for the rule to apply. -/
theorem window_matches_conjunctive_rule_disjunctive (role : Role)
    (p q : String → Bool) (rule : WindowRule)
    (hexc : (rule.excludes.any fun m => window_matches role m) = false)
    (hm : ∃ m ∈ rule.«matches», window_matches role m = true) :
    ruleApplies role rule = true ∧
    (window_matches role ⟨some p, some q⟩ = true ↔
      (∃ a, role.app_id = some a ∧ p a = true) ∧
      (∃ t, role.title = some t ∧ q t = true)) := by
  constructor
  · rcases hm with ⟨m, hmem, hwm⟩
    unfold ruleApplies
    simp only [hexc, Bool.not_false, Bool.and_true, Bool.or_eq_true, List.any_eq_true]
    exact Or.inr ⟨m, hmem, hwm⟩
  · rcases role with ⟨oa, ot⟩
    cases oa <;> cases ot <;> simp [window_matches]

def c9role : Role := ⟨some "foo", some "bar"⟩

def c9match : Match := ⟨some (fun s => s == "foo"), none⟩

def c9rule : WindowRule := ⟨[c9match], [], none, none⟩

theorem window_matches_conjunctive_rule_disjunctive_witness :
    ruleApplies c9role c9rule = true ∧
    (window_matches c9role ⟨some (fun s => s == "foo"), some (fun s => s == "baz")⟩ = true ↔
      (∃ a, c9role.app_id = some a ∧ (a == "foo") = true) ∧
      (∃ t, c9role.title = some t ∧ (t == "baz") = true)) :=
  window_matches_conjunctive_rule_disjunctive c9role _ _ c9rule rfl
    ⟨c9match, by simp [c9rule], rfl⟩

/-! ## Popup grab arbitration (XdgShellHandler::grab) -/

/-- Surfaces and input serials are identified by stable handles. -/
abbrev Surface := Nat

/-- A serial issued by the input seat. -/
abbrev Serial := Nat

/-- The wlr-layer-shell stacking tiers. -/
inductive WlrLayer
  | Background
  | Bottom
  | Top
  | Overlay
deriving DecidableEq

/-- What the grab handler reads from a layer surface found for the root. -/
structure LayerSurfaceInfo where
  layer : WlrLayer
  can_receive_keyboard_focus : Bool
deriving DecidableEq

/-- The grab session handed out by PopupManager::grab_popup, as the handler
observes it: its recorded previous serial and its current keyboard focus
target. -/
structure GrabSession where
  previous_serial : Option Serial
  current_grab : Option Surface
deriving DecidableEq

/-- The single process-wide popup-grab record (niri::PopupGrabState). -/
structure PopupGrabState where
  root : Surface
  grab : GrabSession
deriving DecidableEq

/-- Everything XdgShellHandler::grab reads from its collaborators (seat,
input method, lock state, screenshot UI, layout engine, layer maps and
popup tracker), modelled by the values of those queries. -/
structure GrabEnv where
  ime_keyboard_grabbed : Bool
  root : Option Surface
  is_locked : Bool
  lock_surface_focus : Option Surface
  screenshot_open : Bool
  active_output : Bool
  layer_for_root : Option LayerSurfaceInfo
  overlay_can_focus : Bool
  render_above_top_layer : Bool
  top_can_focus : Bool
  layout_focus : Option Surface
  grab_popup : Option GrabSession
  keyboard_is_grabbed : Bool
  keyboard_has_grab : Serial → Bool
  pointer_is_grabbed : Bool
  pointer_has_grab : Serial → Bool

/-- The PopupUngrabStrategy passed to GrabSession release. -/
inductive UngrabStrategy
  | Topmost
  | All
deriving DecidableEq

/-- The observable outcome of one grab request. staleUngrabbed means the
just-created session was released with PopupUngrabStrategy::All and the
request denied; granted means the keyboard and pointer grabs were installed
and the process-wide popup-grab state replaced. -/
inductive GrabOutcome
  | ignoredIme
  | noRoot
  | dismissed (root : Surface)
  | grabFailed (root : Surface)
  | staleUngrabbed (root : Surface)
  | granted (root : Surface) (session : GrabSession)
deriving DecidableEq

/-- The focus-consistency decision of the grab handler: the else-if chain on
lock state, screenshot UI, layer surfaces and layout focus. Every branch of
the source that dismisses the popup and returns yields false; the branches
that fall through to grab_popup yield true. -/
def focusGrant (env : GrabEnv) (root : Surface) : Bool :=
  if env.is_locked then
    decide (env.lock_surface_focus = some root)
  else if env.screenshot_open then
    false
  else if env.active_output then
    match env.layer_for_root with
    | some layer_surface =>
      match layer_surface.layer with
      | WlrLayer.Overlay => true
      | WlrLayer.Top => true
      | _ => false
    | none =>
      if env.overlay_can_focus then
        false
      else if !env.render_above_top_layer && env.top_can_focus then
        false
      else
        decide (env.layout_focus = some root)
  else
    false

/-- keyboard_grab_mismatches: the keyboard is grabbed and the serial matches
neither the live grab serial nor the recorded previous serial; a session
with no previous serial recorded passes (map_or with default true). -/
def keyboard_grab_mismatches (env : GrabEnv) (grab : GrabSession) (serial : Serial) : Bool :=
  env.keyboard_is_grabbed &&
    !(env.keyboard_has_grab serial ||
      (match grab.previous_serial with
       | none => true
       | some s => env.keyboard_has_grab s))

/-- pointer_grab_mismatches: identical check on the pointer device. -/
def pointer_grab_mismatches (env : GrabEnv) (grab : GrabSession) (serial : Serial) : Bool :=
  env.pointer_is_grabbed &&
    !(env.pointer_has_grab serial ||
      (match grab.previous_serial with
       | none => true
       | some s => env.pointer_has_grab s))

/-- XdgShellHandler::grab translated branch for branch. -/
def grab (env : GrabEnv) (serial : Serial) : GrabOutcome :=
  if env.ime_keyboard_grabbed then
    GrabOutcome.ignoredIme
  else
    match env.root with
    | none => GrabOutcome.noRoot
    | some root =>
      if !focusGrant env root then
        GrabOutcome.dismissed root
      else
        match env.grab_popup with
        | none => GrabOutcome.grabFailed root
        | some g =>
          if keyboard_grab_mismatches env g serial || pointer_grab_mismatches env g serial then
            GrabOutcome.staleUngrabbed root
          else
            GrabOutcome.granted root g

/-- The process-wide popup-grab slot after the request: only a granted
request replaces it; every denial path leaves it untouched. -/
def popupGrabAfter (prev : Option PopupGrabState) : GrabOutcome → Option PopupGrabState
  | GrabOutcome.granted root g => some ⟨root, g⟩
  | _ => prev

/-- The ungrab strategy used on the just-created session, when one is. -/
def ungrabStrategyUsed : GrabOutcome → Option UngrabStrategy
  | GrabOutcome.staleUngrabbed _ => some UngrabStrategy.All
  | _ => none

/-- Claim C1: when the request reaches the serial check (input method holds
no grab, the root resolves, focus is consistent, a session was created) and
the keyboard or pointer is already grabbed while the serial matches neither
that device's live grab serial nor the session's recorded previous serial,
the request is denied: the session is released with strategy All and no new
process-wide popup-grab state is installed. -/
theorem grab_stale_serial_denied (env : GrabEnv) (serial : Serial) (r : Surface)
    (g : GrabSession) (p : Serial) (prev : Option PopupGrabState)
    (hime : env.ime_keyboard_grabbed = false)
    (hroot : env.root = some r)
    (hfocus : focusGrant env r = true)
    (hpop : env.grab_popup = some g)
    (hprev : g.previous_serial = some p)
    (hstale :
      (env.keyboard_is_grabbed = true ∧ env.keyboard_has_grab serial = false ∧
        env.keyboard_has_grab p = false) ∨
      (env.pointer_is_grabbed = true ∧ env.pointer_has_grab serial = false ∧
        env.pointer_has_grab p = false)) :
    grab env serial = GrabOutcome.staleUngrabbed r ∧
    ungrabStrategyUsed (grab env serial) = some UngrabStrategy.All ∧
    popupGrabAfter prev (grab env serial) = prev := by
  have hmm : (keyboard_grab_mismatches env g serial || pointer_grab_mismatches env g serial)
      = true := by
    rcases hstale with ⟨h1, h2, h3⟩ | ⟨h1, h2, h3⟩
    · simp [keyboard_grab_mismatches, hprev, h1, h2, h3]
    · simp [pointer_grab_mismatches, hprev, h1, h2, h3]
  have hg : grab env serial = GrabOutcome.staleUngrabbed r := by
    simp [grab, hime, hroot, hfocus, hpop, hmm]
  refine ⟨hg, ?_, ?_⟩ <;> rw [hg] <;> rfl

def c1env : GrabEnv :=
  { ime_keyboard_grabbed := false
    root := some 7
    is_locked := false
    lock_surface_focus := none
    screenshot_open := false
    active_output := true
    layer_for_root := none
    overlay_can_focus := false
    render_above_top_layer := true
    top_can_focus := false
    layout_focus := some 7
    grab_popup := some ⟨some 3, some 7⟩
    keyboard_is_grabbed := true
    keyboard_has_grab := fun _ => false
    pointer_is_grabbed := false
    pointer_has_grab := fun _ => false }

theorem grab_stale_serial_denied_witness :
    grab c1env 5 = GrabOutcome.staleUngrabbed 7 ∧
    ungrabStrategyUsed (grab c1env 5) = some UngrabStrategy.All ∧
    popupGrabAfter (some ⟨9, ⟨none, none⟩⟩) (grab c1env 5) = some ⟨9, ⟨none, none⟩⟩ :=
  grab_stale_serial_denied c1env 5 7 ⟨some 3, some 7⟩ 3 (some ⟨9, ⟨none, none⟩⟩)
    rfl rfl rfl rfl rfl (Or.inl ⟨rfl, rfl, rfl⟩)

/-- Claim C10: a grab session reporting no recorded previous serial is
treated as validly chained: with the keyboard already grabbed and a serial
matching no live keyboard grab, a session whose previous_serial is None
still passes the staleness check and the grab is installed. -/
theorem grab_no_previous_serial_chained (env : GrabEnv) (serial : Serial) (r : Surface)
    (g : GrabSession) (prev : Option PopupGrabState)
    (hime : env.ime_keyboard_grabbed = false)
    (hroot : env.root = some r)
    (hfocus : focusGrant env r = true)
    (hpop : env.grab_popup = some g)
    (hprev : g.previous_serial = none)
    (_hkb : env.keyboard_is_grabbed = true)
    (_hlive : env.keyboard_has_grab serial = false) :
    grab env serial = GrabOutcome.granted r g ∧
    popupGrabAfter prev (grab env serial) = some ⟨r, g⟩ := by
  have hk : keyboard_grab_mismatches env g serial = false := by
    simp [keyboard_grab_mismatches, hprev]
  have hp : pointer_grab_mismatches env g serial = false := by
    simp [pointer_grab_mismatches, hprev]
  have hg : grab env serial = GrabOutcome.granted r g := by
    simp [grab, hime, hroot, hfocus, hpop, hk, hp]
  exact ⟨hg, by rw [hg]; rfl⟩

def c10env : GrabEnv :=
  { c1env with grab_popup := some ⟨none, some 7⟩ }

theorem grab_no_previous_serial_chained_witness :
    grab c10env 5 = GrabOutcome.granted 7 ⟨none, some 7⟩ ∧
    popupGrabAfter none (grab c10env 5) = some ⟨7, ⟨none, some 7⟩⟩ :=
  grab_no_previous_serial_chained c10env 5 7 ⟨none, some 7⟩ none
    rfl rfl rfl rfl rfl rfl rfl

/-- Claim C8: while the session is locked and the root resolves, a grab
request rooted at the lock focus target is granted (the popup-grab state
records that root) provided the session creation and serial checks pass;
a root other than the lock focus target is dismissed and denied with no
grab state installed. -/
theorem grab_locked_root_check (env : GrabEnv) (serial : Serial) (r : Surface)
    (g : GrabSession) (prev : Option PopupGrabState)
    (hime : env.ime_keyboard_grabbed = false)
    (hroot : env.root = some r)
    (hlock : env.is_locked = true) :
    ((env.lock_surface_focus = some r ∧ env.grab_popup = some g ∧
        keyboard_grab_mismatches env g serial = false ∧
        pointer_grab_mismatches env g serial = false) →
      grab env serial = GrabOutcome.granted r g ∧
      popupGrabAfter prev (grab env serial) = some ⟨r, g⟩) ∧
    (env.lock_surface_focus ≠ some r →
      grab env serial = GrabOutcome.dismissed r ∧
      popupGrabAfter prev (grab env serial) = prev) := by
  constructor
  · rintro ⟨hl, hpop, hk, hp⟩
    have hfocus : focusGrant env r = true := by
      unfold focusGrant
      rw [hlock]
      simp [hl]
    have hg : grab env serial = GrabOutcome.granted r g := by
      simp [grab, hime, hroot, hfocus, hpop, hk, hp]
    exact ⟨hg, by rw [hg]; rfl⟩
  · intro hne
    have hfocus : focusGrant env r = false := by
      unfold focusGrant
      rw [hlock]
      simpa using decide_eq_false hne
    have hg : grab env serial = GrabOutcome.dismissed r := by
      simp [grab, hime, hroot, hfocus]
    exact ⟨hg, by rw [hg]; rfl⟩

def c8env : GrabEnv :=
  { ime_keyboard_grabbed := false
    root := some 4
    is_locked := true
    lock_surface_focus := some 4
    screenshot_open := false
    active_output := true
    layer_for_root := none
    overlay_can_focus := false
    render_above_top_layer := true
    top_can_focus := false
    layout_focus := none
    grab_popup := some ⟨none, some 4⟩
    keyboard_is_grabbed := false
    keyboard_has_grab := fun _ => false
    pointer_is_grabbed := false
    pointer_has_grab := fun _ => false }

theorem grab_locked_root_check_witness :
    ((c8env.lock_surface_focus = some 4 ∧ c8env.grab_popup = some ⟨none, some 4⟩ ∧
        keyboard_grab_mismatches c8env ⟨none, some 4⟩ 5 = false ∧
        pointer_grab_mismatches c8env ⟨none, some 4⟩ 5 = false) →
      grab c8env 5 = GrabOutcome.granted 4 ⟨none, some 4⟩ ∧
      popupGrabAfter none (grab c8env 5) = some ⟨4, ⟨none, some 4⟩⟩) ∧
    (c8env.lock_surface_focus ≠ some 4 →
      grab c8env 5 = GrabOutcome.dismissed 4 ∧
      popupGrabAfter none (grab c8env 5) = none) :=
  grab_locked_root_check c8env 5 4 ⟨none, some 4⟩ none rfl rfl rfl

/-! ## Fullscreen requests (XdgShellHandler::fullscreen_request) -/

/-- Windows and outputs are identified by stable handles. -/
abbrev Window := Nat

/-- Output handle. -/
abbrev Output := Nat

/-- A logical size (width, height). -/
structure Size where
  w : Int
  h : Int
deriving DecidableEq

/-- What fullscreen_request reads from its collaborators: the advertised
capabilities of the toplevel, the layout lookup, the resolved requested
output, the unmapped-window lookup and the active workspace view size. -/
structure FsEnv where
  has_fullscreen_capability : Bool
  find_window_and_output : Option (Window × Output)
  requested_output : Option Output
  unmapped_window : Option Window
  active_workspace_view_size : Option Size

/-- The observable effects of one fullscreen_request: the layout moves and
fullscreen calls issued, the pending protocol state written, and how many
configures were sent. -/
structure FsEffects where
  moved_to_output : Option (Window × Output) := none
  set_fullscreen : Option (Window × Bool) := none
  pending_size : Option Size := none
  pending_fullscreen_set : Bool := false
  configures : Nat := 0
deriving DecidableEq

/-- XdgShellHandler::fullscreen_request translated branch for branch; the
final send_configure is the unconditional configure the protocol demands. -/
def fullscreen_request (env : FsEnv) : FsEffects :=
  let e : FsEffects :=
    if env.has_fullscreen_capability then
      match env.find_window_and_output with
      | some (window, current_output) =>
        let moved :=
          match env.requested_output with
          | some requested_output =>
            if requested_output ≠ current_output then some (window, requested_output)
            else none
          | none => none
        { moved_to_output := moved, set_fullscreen := some (window, true) }
      | none =>
        match env.unmapped_window with
        | some _ =>
          match env.active_workspace_view_size with
          | some view_size =>
            { pending_size := some view_size, pending_fullscreen_set := true }
          | none => {}
        | none => {}
    else {}
  { e with configures := e.configures + 1 }

/-- Claim C3: every fullscreen_request sends exactly one configure, and when
the advertised capabilities do not include Fullscreen no compositor or
pending protocol state is changed while the one configure is still sent. -/
theorem fullscreen_request_one_configure (env : FsEnv) :
    (fullscreen_request env).configures = 1 ∧
    (env.has_fullscreen_capability = false →
      fullscreen_request env =
        { moved_to_output := none, set_fullscreen := none, pending_size := none,
          pending_fullscreen_set := false, configures := 1 }) := by
  constructor
  · unfold fullscreen_request
    cases hc : env.has_fullscreen_capability
    · rfl
    · cases hf : env.find_window_and_output with
      | some wo => cases ho : env.requested_output <;> rfl
      | none =>
        cases hu : env.unmapped_window <;>
          first
            | rfl
            | cases hw : env.active_workspace_view_size <;> rfl
  · intro hc
    unfold fullscreen_request
    rw [hc]
    rfl

/-! ## Toplevel destruction (XdgShellHandler::toplevel_destroyed) -/

/-- What toplevel_destroyed reads: whether the surface sits in the
unmapped-window map, and the layout engine lookup. -/
structure DestroyEnv where
  in_unmapped : Bool
  find_window_and_output : Option (Window × Output)

/-- The observable effects of one toplevel_destroyed call. -/
structure DestroyEffects where
  removed_from_unmapped : Bool := false
  removed_from_layout : Option Window := none
  queued_redraw : Option Output := none
  logged_error : Bool := false
deriving DecidableEq

/-- XdgShellHandler::toplevel_destroyed translated branch for branch: the
unmapped map is tried first (remove returning Some means the entry was
removed), then the layout engine, and a surface in neither logs an error
and returns. -/
def toplevel_destroyed (env : DestroyEnv) : DestroyEffects :=
  if env.in_unmapped then
    { removed_from_unmapped := true }
  else
    match env.find_window_and_output with
    | some (window, output) =>
      { removed_from_layout := some window, queued_redraw := some output }
    | none =>
      { logged_error := true }

/-- Claim C6: destruction of a toplevel present in the unmapped set removes
it from that set and leaves the layout engine untouched; otherwise a window
found by the layout engine is removed from layout and a redraw of its
output queued; a surface found in neither logs an error and returns with no
state change. -/
theorem toplevel_destroyed_cases (env : DestroyEnv) :
    (env.in_unmapped = true →
      toplevel_destroyed env =
        { removed_from_unmapped := true, removed_from_layout := none,
          queued_redraw := none, logged_error := false }) ∧
    (env.in_unmapped = false → ∀ w o, env.find_window_and_output = some (w, o) →
      toplevel_destroyed env =
        { removed_from_unmapped := false, removed_from_layout := some w,
          queued_redraw := some o, logged_error := false }) ∧
    (env.in_unmapped = false → env.find_window_and_output = none →
      toplevel_destroyed env =
        { removed_from_unmapped := false, removed_from_layout := none,
          queued_redraw := none, logged_error := true }) := by
  refine ⟨fun h => ?_, fun h w o hf => ?_, fun h hf => ?_⟩
  · simp [toplevel_destroyed, h]
  · simp [toplevel_destroyed, h, hf]
  · simp [toplevel_destroyed, h, hf]

/-! ## Decoration negotiation (XdgDecorationHandler::request_mode) and the
initial configure (State::send_initial_configure_if_needed) -/

/-- The zxdg_toplevel_decoration_v1 modes a client can request. -/
inductive DecorationMode
  | ClientSide
  | ServerSide
deriving DecidableEq

/-- The pending (double-buffered) protocol state of a toplevel as these
handlers write it. -/
structure TLPending where
  decoration_mode : Option DecorationMode := none
  size : Option Size := none
  tiled_left : Bool := false
  tiled_right : Bool := false
  tiled_top : Bool := false
  tiled_bottom : Bool := false
deriving DecidableEq

/-- A toplevel as these handlers observe it: its pending state, whether the
initial configure was sent, and the configures emitted so far (each
carrying the pending state at send time). -/
structure Toplevel where
  pending : TLPending
  initial_configure_sent : Bool
  configures : List TLPending
deriving DecidableEq

/-- ToplevelSurface::send_configure: emit the pending state and mark the
initial configure as sent. -/
def send_configure (t : Toplevel) : Toplevel :=
  { t with configures := t.configures ++ [t.pending], initial_configure_sent := true }

/-- initial_configure_sent as the source reads it from the role data. -/
def initial_configure_sent (t : Toplevel) : Bool :=
  t.initial_configure_sent

/-- XdgDecorationHandler::request_mode: set the pending mode to whatever the
client wants unconditionally, and send a follow-up configure only if the
initial configure was already sent. -/
def request_mode (t : Toplevel) (mode : DecorationMode) : Toplevel :=
  let t := { t with pending := { t.pending with decoration_mode := some mode } }
  if initial_configure_sent t then send_configure t else t

/-- What send_initial_configure_if_needed reads from its collaborators: the
config, the window rules and role, and the chosen workspace's
configure_new_window (abstracted, with workspace resolution collapsed to
whether some workspace was found), which writes the pending size. -/
structure InitEnv where
  prefer_no_csd : Bool
  window_rules : List WindowRule
  role : Role
  workspace_new_window_size : Option (Option (Option ColumnWidth) → Size)

/-- State::send_initial_configure_if_needed: a no-op once the initial
configure was sent; otherwise resolve rules, let the workspace configure
the new window, set the four tiled flags when the user prefers no
client-side decorations, and send the configure. -/
def send_initial_configure_if_needed (env : InitEnv) (t : Toplevel) : Toplevel :=
  if initial_configure_sent t then
    t
  else
    let rules := resolve_window_rules env.window_rules env.role
    let t :=
      match env.workspace_new_window_size with
      | some configure_new_window =>
        { t with pending :=
            { t.pending with size := some (configure_new_window rules.default_width) } }
      | none => t
    let t :=
      if env.prefer_no_csd then
        { t with pending :=
            { t.pending with tiled_left := true, tiled_right := true,
                             tiled_top := true, tiled_bottom := true } }
      else t
    send_configure t

theorem init_configure_appends (env : InitEnv) (t : Toplevel)
    (h : t.initial_configure_sent = false) :
    ∃ c, (send_initial_configure_if_needed env t).configures = t.configures ++ [c] ∧
      c.decoration_mode = t.pending.decoration_mode := by
  unfold send_initial_configure_if_needed initial_configure_sent
  rw [h]
  cases hw : env.workspace_new_window_size <;> cases hcsd : env.prefer_no_csd <;>
    exact ⟨_, rfl, rfl⟩

/-- Claim C7: a client decoration-mode request sets the pending mode to the
requested mode unconditionally; a follow-up configure is emitted iff the
initial configure was already sent, and when it was not, no extra configure
is emitted and the requested mode is carried by the eventual initial
configure. -/
theorem request_mode_sets_pending_configures_iff_sent (t : Toplevel)
    (mode : DecorationMode) (env : InitEnv) :
    (request_mode t mode).pending.decoration_mode = some mode ∧
    (t.initial_configure_sent = true →
      (request_mode t mode).configures =
        t.configures ++ [{ t.pending with decoration_mode := some mode }]) ∧
    (t.initial_configure_sent = false →
      (request_mode t mode).configures = t.configures ∧
      ∃ c, (send_initial_configure_if_needed env (request_mode t mode)).configures =
          t.configures ++ [c] ∧ c.decoration_mode = some mode) := by
  cases hs : t.initial_configure_sent
  · refine ⟨?_, fun h => Bool.noConfusion h, fun _ => ⟨?_, ?_⟩⟩
    · simp [request_mode, initial_configure_sent, hs]
    · simp [request_mode, initial_configure_sent, hs]
    · have hns : (request_mode t mode).initial_configure_sent = false := by
        simp [request_mode, initial_configure_sent, hs]
      obtain ⟨c, hc, hm⟩ := init_configure_appends env (request_mode t mode) hns
      refine ⟨c, ?_, ?_⟩
      · rw [hc]
        simp [request_mode, initial_configure_sent, hs]
      · rw [hm]
        simp [request_mode, initial_configure_sent, hs]
  · refine ⟨?_, fun _ => ?_, fun h => Bool.noConfusion h⟩
    · simp [request_mode, initial_configure_sent, send_configure, hs]
    · simp [request_mode, initial_configure_sent, send_configure, hs]

/-! ## Popup geometry (unconstrain_with_padding) -/

/-- A logical point. -/
structure Point where
  x : Int
  y : Int
deriving DecidableEq

/-- A logical rectangle (smithay Rectangle of i32 Logical coordinates). -/
structure Rect where
  loc : Point
  size : Size
deriving DecidableEq

/-- Rectangle::contains_rect of smithay, the containment check the padded
attempt is validated with: the inner rectangle lies entirely within the
outer one. -/
def contains_rect (outer inner : Rect) : Bool :=
  decide (outer.loc.x ≤ inner.loc.x) && decide (outer.loc.y ≤ inner.loc.y) &&
  decide (inner.loc.x + inner.size.w ≤ outer.loc.x + outer.size.w) &&
  decide (inner.loc.y + inner.size.h ≤ outer.loc.y + outer.size.h)

/-- The xdg_positioner constraint-adjustment flag set. -/
structure ConstraintAdjustment where
  slide_x : Bool := false
  slide_y : Bool := false
  flip_x : Bool := false
  flip_y : Bool := false
  resize_x : Bool := false
  resize_y : Bool := false
deriving DecidableEq

/-- A positioner: its constraint-adjustment flags, and the smithay
constraint solver get_unconstrained_geometry modelled abstractly as a
function of the flags and the target (the other positioner fields are
folded into the function). -/
structure PositionerState where
  constraint_adjustment : ConstraintAdjustment
  solve : ConstraintAdjustment → Rect → Rect

/-- PositionerState::get_unconstrained_geometry applied with the flags the
positioner currently carries. -/
def get_unconstrained_geometry (p : PositionerState) (target : Rect) : Rect :=
  p.solve p.constraint_adjustment target

/-- The padded copy of the target: PADDING = 8, and each axis is shrunk by
the inset on both sides only when twice the inset is less than that axis. -/
def paddedOf (target : Rect) : Rect :=
  let PADDING : Int := 8
  let padded := target
  let padded :=
    if PADDING * 2 < padded.size.w then
      { padded with loc := { padded.loc with x := padded.loc.x + PADDING },
                    size := { padded.size with w := padded.size.w - PADDING * 2 } }
    else padded
  let padded :=
    if PADDING * 2 < padded.size.h then
      { padded with loc := { padded.loc with y := padded.loc.y + PADDING },
                    size := { padded.size with h := padded.size.h - PADDING * 2 } }
    else padded
  padded

/-- The modified positioner of the padded attempt: ResizeX and ResizeY
removed from the constraint adjustments. -/
def noResize (p : PositionerState) : PositionerState :=
  { p with constraint_adjustment :=
      { p.constraint_adjustment with resize_x := false, resize_y := false } }

/-- unconstrain_with_padding translated branch for branch. -/
def unconstrain_with_padding (positioner : PositionerState) (target : Rect) : Rect :=
  let padded := paddedOf target
  if padded = target then
    get_unconstrained_geometry positioner target
  else
    let geo := get_unconstrained_geometry (noResize positioner) padded
    if contains_rect padded geo then
      geo
    else
      get_unconstrained_geometry positioner target

def c4positioner : PositionerState :=
  { constraint_adjustment := {}, solve := fun _ r => r }

def c4target : Rect := ⟨⟨0, 0⟩, ⟨20, 10⟩⟩

/-- Counterexample to claim C4 as stated: for the 20 by 10 target only the
width exceeds twice the 8-unit inset, so not both dimensions exceed it,
yet the result differs from solving directly against the original target:
padding is applied per axis, not only when both dimensions exceed the
threshold. -/
theorem unconstrain_padding_both_dims_cex :
    ¬(8 * 2 < c4target.size.w ∧ 8 * 2 < c4target.size.h) ∧
    unconstrain_with_padding c4positioner c4target ≠
      get_unconstrained_geometry c4positioner c4target := by
  constructor
  · decide
  · decide

/-- Claim C4 as amended: padding is applied independently per axis, an axis
being shrunk iff its dimension exceeds twice the 8-unit inset; the padded
target equals the original iff neither dimension exceeds twice the inset,
and in that case unconstrain_with_padding solves directly against the
original target. -/
theorem unconstrain_padding_per_axis (p : PositionerState) (t : Rect) :
    (paddedOf t = t ↔ (t.size.w ≤ 8 * 2 ∧ t.size.h ≤ 8 * 2)) ∧
    (t.size.w ≤ 8 * 2 → t.size.h ≤ 8 * 2 →
      unconstrain_with_padding p t = get_unconstrained_geometry p t) := by
  obtain ⟨⟨px, py⟩, ⟨sw, sh⟩⟩ := t
  have hiff : paddedOf ⟨⟨px, py⟩, ⟨sw, sh⟩⟩ = ⟨⟨px, py⟩, ⟨sw, sh⟩⟩ ↔
      (sw ≤ 8 * 2 ∧ sh ≤ 8 * 2) := by
    unfold paddedOf
    dsimp only
    split_ifs <;>
      simp only [Rect.mk.injEq, Point.mk.injEq, Size.mk.injEq, true_and, and_true,
        true_iff, iff_true] at * <;> omega
  refine ⟨hiff, fun hw hh => ?_⟩
  have hp := hiff.mpr ⟨hw, hh⟩
  unfold unconstrain_with_padding
  rw [hp]
  simp

/-- Claim C5: when the padded target differs from the original, the handler
solves against the padded target with a copy of the positioner whose
ResizeX and ResizeY adjustments are removed, returns that geometry iff it
is entirely contained in the padded target, and otherwise returns the
result of solving against the original target with the original positioner;
the function is total, so some geometry is always returned. -/
theorem unconstrain_padded_attempt (p : PositionerState) (t : Rect)
    (h : paddedOf t ≠ t) :
    (contains_rect (paddedOf t)
        (get_unconstrained_geometry (noResize p) (paddedOf t)) = true →
      unconstrain_with_padding p t =
        get_unconstrained_geometry (noResize p) (paddedOf t)) ∧
    (contains_rect (paddedOf t)
        (get_unconstrained_geometry (noResize p) (paddedOf t)) = false →
      unconstrain_with_padding p t = get_unconstrained_geometry p t) := by
  unfold unconstrain_with_padding
  constructor <;> intro hc <;> simp [h, hc]

def c5positioner : PositionerState :=
  { constraint_adjustment := { resize_x := true, resize_y := true }, solve := fun _ r => r }

def c5target : Rect := ⟨⟨0, 0⟩, ⟨100, 100⟩⟩

theorem unconstrain_padded_attempt_witness :
    (contains_rect (paddedOf c5target)
        (get_unconstrained_geometry (noResize c5positioner) (paddedOf c5target)) = true →
      unconstrain_with_padding c5positioner c5target =
        get_unconstrained_geometry (noResize c5positioner) (paddedOf c5target)) ∧
    (contains_rect (paddedOf c5target)
        (get_unconstrained_geometry (noResize c5positioner) (paddedOf c5target)) = false →
      unconstrain_with_padding c5positioner c5target =
        get_unconstrained_geometry c5positioner c5target) :=
  unconstrain_padded_attempt c5positioner c5target (by decide)

end Niri
